/-
Verification of the star-schema construction core of the
`hcmut_datawarehouse_251` repository (`src/data/dwh_etl.py`).

The Python module builds four dimension tables and one fact table with
pandas.  We shallowly embed the relevant functions:

* a pandas DataFrame of cleaned churn records becomes a `List SourceRecord`
  (the default `RangeIndex` of a freshly loaded CSV is the list position);
* a cell of the `AgeGroup` / `IncomeGroup` columns becomes a `GVal`; pandas
  stores such a cell either as a plain string or as an ordered-categorical
  value, which sorts by its category code but stringifies to its label;
* `Series.unique()` (first-occurrence deduplication) becomes `uniqueFirst`;
* `sorted(...)` / `DataFrame.sort_values` become `List.insertionSort`
  (on distinct keys every correct sort produces the same list);
* `DataFrame.merge(..., how='left')` becomes `leftJoin`: every left row in
  order, each matched against the right rows in their order, with a single
  null-extended row when nothing matches;
* a value that pandas would store as NaN becomes `none`.
-/

import Mathlib

namespace DwhEtl

/-- The lexicographic code-point order in which Python's `sorted` compares
strings, stated on the underlying character list (the core `String`
comparison is semantically the same but is compiled via iterators, which do
not reduce inside the kernel). -/
def strLe (a b : String) : Prop := a.data ≤ b.data

instance : DecidableRel strLe :=
  fun a b => inferInstanceAs (Decidable (a.data ≤ b.data))

instance : IsTotal String strLe := ⟨fun a b => le_total a.data b.data⟩

instance : IsTrans String strLe := ⟨fun _ _ _ h h2 => le_trans h h2⟩

instance : IsAntisymm String strLe :=
  ⟨fun a b h h2 => by
    cases a; cases b; exact congrArg String.mk (le_antisymm h h2)⟩

/-- A cell of the `AgeGroup` / `IncomeGroup` columns.  `s v` is a plain
string cell; `c label code` is an ordered-categorical cell, which compares
by `code` under `sort_values` but renders as `label` under `astype(str)`. -/
inductive GVal where
  | s (v : String)
  | c (label : String) (code : Nat)
deriving DecidableEq, Repr

/-- `astype(str)` on a cell: a categorical value renders as its label. -/
def GVal.toStr : GVal → String
  | .s v => v
  | .c l _ => l

/-- Strict comparison used by `sort_values`: plain strings compare
lexicographically, categorical values compare by category code.  A pandas
column never mixes the two constructors; the cross-constructor case is given
an arbitrary fixed answer (real pandas would raise on a mixed column). -/
def GVal.ltB : GVal → GVal → Bool
  | .s a, .s b => decide (a.data < b.data)
  | .c _ ca, .c _ cb => decide (ca < cb)
  | .s _, .c _ _ => true
  | .c _ _, .s _ => false

/-- Non-strict counterpart of `GVal.ltB`. -/
def GVal.leB : GVal → GVal → Bool
  | .s a, .s b => decide (a.data ≤ b.data)
  | .c _ ca, .c _ cb => decide (ca ≤ cb)
  | .s _, .c _ _ => true
  | .c _ _, .s _ => false

/-- Lexicographic comparator used by
`sort_values(['AgeGroup', 'IncomeGroup'])` (line 90): primary key first,
ties broken by the secondary key. -/
def segPairLeB (p q : GVal × GVal) : Bool :=
  GVal.ltB p.1 q.1 || (p.1 == q.1 && GVal.leB p.2 q.2)

/-- The comparator as a relation, for `List.insertionSort`. -/
def SegPairLe (p q : GVal × GVal) : Prop := segPairLeB p q = true

instance : DecidableRel SegPairLe := fun p q => instDecidableEqBool _ _

/-- One row of the cleaned churn dataset (`churn_clean.csv`): the raw
columns minus `RowNumber`/`CustomerId`/`Surname`, plus the derived
`AgeGroup`/`IncomeGroup`.  The flag columns are `int` 0/1 after
`clean_data`; the float measures are only carried through verbatim, so we
model them as integers. -/
structure SourceRecord where
  creditScore : Nat
  geography : String
  gender : String
  age : Nat
  tenure : Nat
  balance : Int
  numOfProducts : Nat
  hasCrCard : Nat
  isActiveMember : Nat
  estimatedSalary : Int
  exited : Nat
  ageGroup : GVal
  incomeGroup : GVal
deriving DecidableEq, Repr

/-- `Series.unique()`: the distinct values in order of first occurrence.
`seen` accumulates the values already emitted. -/
def uniqueFirstAux {α : Type} [DecidableEq α] : List α → List α → List α
  | _, [] => []
  | seen, x :: xs =>
    if x ∈ seen then uniqueFirstAux seen xs
    else x :: uniqueFirstAux (x :: seen) xs

/-- `Series.unique()` on a whole column. -/
def uniqueFirst {α : Type} [DecidableEq α] (l : List α) : List α :=
  uniqueFirstAux [] l

/-- `range(k, k + len(l))` zipped with `l`: surrogate-key assignment. -/
def withKeysFrom {α : Type} : Nat → List α → List (Nat × α)
  | _, [] => []
  | k, x :: xs => (k, x) :: withKeysFrom (k + 1) xs

/-- One row of the Geography dimension (lines 44-47). -/
structure GeoRow where
  geo_key : Nat
  country : String
deriving DecidableEq, Repr

/-- `build_dim_geo` (lines 42-50): take the distinct `Geography` values,
sort them, and pair them with the surrogate keys `1..K`. -/
def build_dim_geo (df : List SourceRecord) : List GeoRow :=
  let countries := uniqueFirst (df.map (·.geography))
  (withKeysFrom 1 (List.insertionSort strLe countries)).map
    (fun p => { geo_key := p.1, country := p.2 })

/-- One row of the Time dimension (lines 63-68). -/
structure TimeRow where
  time_key : Nat
  year : Nat
  month : Nat
  quarter : Nat
deriving DecidableEq, Repr

/-- `SNAPSHOT_YEAR` from `config.py`. -/
def SNAPSHOT_YEAR : Nat := 2019

/-- `SNAPSHOT_MONTH` from `config.py`. -/
def SNAPSHOT_MONTH : Nat := 12

/-- `SNAPSHOT_QUARTER` from `config.py`. -/
def SNAPSHOT_QUARTER : Nat := 4

/-- `build_dim_time` (lines 53-71): a single snapshot row with key 1. -/
def build_dim_time : List TimeRow :=
  [{ time_key := 1, year := SNAPSHOT_YEAR, month := SNAPSHOT_MONTH,
     quarter := SNAPSHOT_QUARTER }]

/-- One row of the Segment dimension (lines 92-96); the group columns are
stored as strings (`astype(str)`). -/
structure SegmentRow where
  segment_key : Nat
  age_group : String
  income_group : String
deriving DecidableEq, Repr

/-- `build_dim_segment` (lines 74-99): distinct raw
`(AgeGroup, IncomeGroup)` pairs (`drop_duplicates`, line 89), sorted by the
raw values (`sort_values`, line 90), keyed `1..K`, and only then converted
to strings (`astype(str)`, lines 94-95). -/
def build_dim_segment (df : List SourceRecord) : List SegmentRow :=
  let segments := uniqueFirst (df.map (fun r => (r.ageGroup, r.incomeGroup)))
  let sortedSegments := List.insertionSort SegPairLe segments
  (withKeysFrom 1 sortedSegments).map
    (fun p => { segment_key := p.1, age_group := p.2.1.toStr,
                income_group := p.2.2.toStr })

/-- One row of the Customer dimension (lines 117-123). -/
structure CustomerRow where
  customer_key : Nat
  customer_id : Nat
  gender : String
  age : Nat
  tenure : Nat
deriving DecidableEq, Repr

/-- `build_dim_customer` (lines 102-126): one row per source row;
`customer_key = range(1, len(df)+1)` and `customer_id = df.index + 1`,
which on the pipeline's freshly loaded CSV (default `RangeIndex`) is the
same 1-based row position. -/
def build_dim_customer (df : List SourceRecord) : List CustomerRow :=
  (withKeysFrom 1 df).map
    (fun p => { customer_key := p.1, customer_id := p.1,
                gender := p.2.gender, age := p.2.age, tenure := p.2.tenure })

/-- `DataFrame.merge(..., how='left')`: each left row in order; a row with a
single match contributes that one combined row, an unmatched row contributes
the null-extended row, and multiple matches fan out (one output row per
match, in the right table's order). -/
def leftJoin {α β γ : Type} (dim : List β) (m : α → β → Bool)
    (combine : α → Option β → γ) : List α → List γ
  | [] => []
  | a :: as =>
    (match dim.filter (m a) with
     | [] => [combine a none]
     | ms => ms.map (fun b => combine a (some b))) ++ leftJoin dim m combine as

/-- The fact frame after lines 152-158: the copied source row with
`customer_key` and `time_key` attached. -/
structure FactStage1 where
  src : SourceRecord
  customer_key : Nat
  time_key : Nat
deriving DecidableEq, Repr

/-- The fact frame after the geo merge (lines 161-166): the left join also
drags in the matched `country` column; both are null on a miss. -/
structure FactStage2 extends FactStage1 where
  geo_key : Option Nat
  country : Option String
deriving DecidableEq, Repr

/-- The fact frame after the segment merge (lines 172-177). -/
structure FactStage3 extends FactStage2 where
  segment_key : Option Nat
  age_group : Option String
  income_group : Option String
deriving DecidableEq, Repr

/-- One row of the final fact table (lines 180-192).  The foreign keys
obtained by the left joins are nullable: the code never checks them. -/
structure FactRow where
  customer_key : Nat
  time_key : Nat
  geo_key : Option Nat
  segment_key : Option Nat
  balance : Int
  estimated_salary : Int
  num_of_products : Nat
  credit_score : Nat
  has_credit_card : Nat
  is_active_member : Nat
  churn_flag : Nat
deriving DecidableEq, Repr

/-- `build_fact_customer_status` (lines 129-195).  `dim_customer` and
`dim_time` are parameters of the Python function but are never read by its
body: `customer_key` is regenerated as `range(1, len(fact)+1)` (line 155)
and `time_key` is the constant 1 (line 158).  The geo merge joins
`Geography` against `country` (lines 161-166); the segment merge joins the
`astype(str)` forms of the group columns against the dimension's string
columns (lines 169-177); lines 180-192 project the eleven output columns. -/
def build_fact_customer_status (df : List SourceRecord)
    (dim_customer : List CustomerRow) (dim_geo : List GeoRow)
    (dim_time : List TimeRow) (dim_segment : List SegmentRow) :
    List FactRow :=
  let fact1 : List FactStage1 :=
    (withKeysFrom 1 df).map (fun p => { src := p.2, customer_key := p.1, time_key := 1 })
  let fact2 : List FactStage2 :=
    leftJoin dim_geo (fun a g => a.src.geography == g.country)
      (fun a og => { toFactStage1 := a, geo_key := og.map (·.geo_key),
                     country := og.map (·.country) }) fact1
  let fact3 : List FactStage3 :=
    leftJoin dim_segment
      (fun a sg => a.src.ageGroup.toStr == sg.age_group
                   && a.src.incomeGroup.toStr == sg.income_group)
      (fun a os => { toFactStage2 := a, segment_key := os.map (·.segment_key),
                     age_group := os.map (·.age_group),
                     income_group := os.map (·.income_group) }) fact2
  fact3.map (fun a =>
    { customer_key := a.customer_key, time_key := a.time_key,
      geo_key := a.geo_key, segment_key := a.segment_key,
      balance := a.src.balance, estimated_salary := a.src.estimatedSalary,
      num_of_products := a.src.numOfProducts, credit_score := a.src.creditScore,
      has_credit_card := a.src.hasCrCard, is_active_member := a.src.isActiveMember,
      churn_flag := a.src.exited })

/-- The column names of the fact table, in the order of the dictionary
literal at lines 180-192. -/
def fact_table_columns : List String :=
  ["customer_key", "time_key", "geo_key", "segment_key", "balance",
   "estimated_salary", "num_of_products", "credit_score", "has_credit_card",
   "is_active_member", "churn_flag"]

/-- A fact cell, tagged by the kind of value the column carries. -/
inductive Cell where
  | nat (n : Nat)
  | int (i : Int)
  | onat (o : Option Nat)
deriving DecidableEq, Repr

/-- The named row that lines 180-192 emit: each output column name paired
with the value taken for it. -/
def fact_row_named (r : FactRow) : List (String × Cell) :=
  [("customer_key", .nat r.customer_key), ("time_key", .nat r.time_key),
   ("geo_key", .onat r.geo_key), ("segment_key", .onat r.segment_key),
   ("balance", .int r.balance), ("estimated_salary", .int r.estimated_salary),
   ("num_of_products", .nat r.num_of_products),
   ("credit_score", .nat r.credit_score),
   ("has_credit_card", .nat r.has_credit_card),
   ("is_active_member", .nat r.is_active_member),
   ("churn_flag", .nat r.churn_flag)]

/-- The column names of the cleaned source table (`churn_clean.csv`): the
raw Churn_Modelling columns minus `COLUMNS_TO_DROP`, plus the two derived
group columns appended by preprocessing. -/
def clean_source_columns : List String :=
  ["CreditScore", "Geography", "Gender", "Age", "Tenure", "Balance",
   "NumOfProducts", "HasCrCard", "IsActiveMember", "EstimatedSalary",
   "Exited", "AgeGroup", "IncomeGroup"]

/-- The errors the ETL core can raise.  `keyError c` models the pandas
`KeyError` from selecting an absent column `c`; `typeErr` models the Python
`TypeError` raised by `sorted` when it compares a NaN (a float) with a
string. -/
inductive ETLError where
  | keyError (column : String)
  | typeErr
deriving DecidableEq, Repr

/-- Python `sorted` over a Geography column that may hold NaN cells: it
raises `TypeError` as soon as a NaN is compared with a string, succeeds in
sorted order on an all-string list, and succeeds (order unchanged, since
`nan < nan` is false) on an all-NaN list. -/
def sortedPy (l : List (Option String)) : Except ETLError (List (Option String)) :=
  if l.any (fun x => x.isNone) && l.any (fun x => x.isSome) then
    .error .typeErr
  else if l.all (fun x => x.isSome) then
    .ok ((List.insertionSort strLe (l.filterMap id)).map some)
  else
    .ok l

/-- `build_dim_geo` at the raw-column level (lines 42-50): `df['Geography']`
raises `KeyError` when the column is absent (`none`); otherwise the column's
cells may themselves be null.  `unique()` then `sorted(...)` then key
assignment, exactly as in `build_dim_geo`. -/
def build_dim_geo_raw (geographyCol : Option (List (Option String))) :
    Except ETLError (List (Nat × Option String)) :=
  match geographyCol with
  | none => .error (.keyError "Geography")
  | some col =>
    (sortedPy (uniqueFirst col)).map (fun sortedCountries => withKeysFrom 1 sortedCountries)

/-- The five output CSV names of `save_dimension_and_fact_tables`
(lines 198-230), in write order. -/
def OUTPUT_FILES : List String :=
  ["dim_customer.csv", "dim_geo.csv", "dim_time.csv", "dim_segment.csv",
   "fact_customer_status.csv"]

/-- The loaded CSV as `run_etl_pipeline` sees it: the Geography column may
be missing entirely (the schema-error case the claims are about); the
remaining required columns are modelled as present, carried by `rows`. -/
structure RawDF where
  geographyPresent : Bool
  rows : List SourceRecord
deriving Repr

/-- The Geography column of a loaded frame: absent, or the (non-null)
geography cells of its rows. -/
def RawDF.geographyCol (df : RawDF) : Option (List (Option String)) :=
  if df.geographyPresent then some (df.rows.map (fun r => some r.geography)) else none

/-- `run_etl_pipeline` (lines 233-272): build `dim_geo` first (line 256),
then the other dimensions, then the fact table, and only then write the
five CSV files (line 266).  The result pairs the outcome with the list of
files written; an exception in `build_dim_geo` propagates (line 256 is
before any write), so nothing is written. -/
def run_etl_pipeline_model (df : RawDF) :
    Except ETLError (List CustomerRow × List GeoRow × List TimeRow ×
      List SegmentRow × List FactRow) × List String :=
  match build_dim_geo_raw df.geographyCol with
  | .error e => (.error e, [])
  | .ok _ =>
    let dim_geo := build_dim_geo df.rows
    let dim_time := build_dim_time
    let dim_segment := build_dim_segment df.rows
    let dim_customer := build_dim_customer df.rows
    let fact := build_fact_customer_status df.rows dim_customer dim_geo
      dim_time dim_segment
    (.ok (dim_customer, dim_geo, dim_time, dim_segment, fact), OUTPUT_FILES)

/-- The in-memory tables of one pipeline run, before and after the fact
build step (line 262). -/
structure WarehouseState where
  df : List SourceRecord
  dim_customer : List CustomerRow
  dim_geo : List GeoRow
  dim_time : List TimeRow
  dim_segment : List SegmentRow
  fact : List FactRow
deriving Repr

/-- Line 262 of `run_etl_pipeline`:
`fact = build_fact_customer_status(df, dim_customer, dim_geo, dim_time,
dim_segment)` — the only variable assigned is `fact`. -/
def fact_build_step (s : WarehouseState) : WarehouseState :=
  { s with
    fact := build_fact_customer_status s.df s.dim_customer s.dim_geo
              s.dim_time s.dim_segment }

/-- A sample cleaned record with the given Geography and group cells. -/
def mkRec (geo : String) (ag ig : GVal) : SourceRecord :=
  { creditScore := 600, geography := geo, gender := "Female", age := 40,
    tenure := 3, balance := 60000, numOfProducts := 1, hasCrCard := 1,
    isActiveMember := 0, estimatedSalary := 50000, exited := 0,
    ageGroup := ag, incomeGroup := ig }

theorem mem_uniqueFirstAux {α : Type} [DecidableEq α] (a : α) (l : List α) :
    ∀ seen, a ∈ uniqueFirstAux seen l ↔ a ∈ l ∧ a ∉ seen := by
  induction l with
  | nil => intro seen; simp [uniqueFirstAux]
  | cons x xs ih =>
    intro seen
    by_cases hx : x ∈ seen
    · rw [uniqueFirstAux, if_pos hx, ih]
      constructor
      · rintro ⟨h1, h2⟩; exact ⟨.tail _ h1, h2⟩
      · rintro ⟨h1, h2⟩
        rcases List.mem_cons.mp h1 with rfl | h1
        · exact absurd hx h2
        · exact ⟨h1, h2⟩
    · rw [uniqueFirstAux, if_neg hx]
      simp only [List.mem_cons, ih]
      by_cases hax : a = x
      · simp [hax, hx]
      · simp [hax]

theorem mem_uniqueFirst {α : Type} [DecidableEq α] (a : α) (l : List α) :
    a ∈ uniqueFirst l ↔ a ∈ l := by
  rw [uniqueFirst, mem_uniqueFirstAux]
  simp

theorem nodup_uniqueFirstAux {α : Type} [DecidableEq α] (l : List α) :
    ∀ seen, (uniqueFirstAux seen l).Nodup := by
  induction l with
  | nil => intro seen; simp [uniqueFirstAux]
  | cons x xs ih =>
    intro seen
    by_cases hx : x ∈ seen
    · rw [uniqueFirstAux, if_pos hx]; exact ih seen
    · rw [uniqueFirstAux, if_neg hx]
      refine List.nodup_cons.mpr ⟨?_, ih (x :: seen)⟩
      intro hmem
      exact ((mem_uniqueFirstAux x xs (x :: seen)).mp hmem).2
        (List.mem_cons_self x seen)

theorem nodup_uniqueFirst {α : Type} [DecidableEq α] (l : List α) :
    (uniqueFirst l).Nodup :=
  nodup_uniqueFirstAux l []

theorem uniqueFirst_perm_of_perm {α : Type} [DecidableEq α] {l l' : List α}
    (h : l.Perm l') : (uniqueFirst l).Perm (uniqueFirst l') := by
  rw [List.perm_ext_iff_of_nodup (nodup_uniqueFirst l) (nodup_uniqueFirst l')]
  intro a
  rw [mem_uniqueFirst, mem_uniqueFirst]
  exact h.mem_iff

theorem uniqueFirst_length_eq_card {α : Type} [DecidableEq α] (l : List α) :
    (uniqueFirst l).length = l.toFinset.card := by
  have h1 : (uniqueFirst l).toFinset = l.toFinset := by
    ext a; simp [List.mem_toFinset, mem_uniqueFirst]
  rw [← h1, List.toFinset_card_of_nodup (nodup_uniqueFirst l)]

theorem withKeysFrom_length {α : Type} (l : List α) :
    ∀ k, (withKeysFrom k l).length = l.length := by
  induction l with
  | nil => intro k; rfl
  | cons x xs ih => intro k; simp [withKeysFrom, ih]

theorem withKeysFrom_map_fst {α : Type} (l : List α) :
    ∀ k, (withKeysFrom k l).map Prod.fst = List.range' k l.length := by
  induction l with
  | nil => intro k; rfl
  | cons x xs ih =>
    intro k
    rw [withKeysFrom, List.map_cons, ih, List.length_cons, List.range'_succ]

theorem withKeysFrom_map_snd {α : Type} (l : List α) :
    ∀ k, (withKeysFrom k l).map Prod.snd = l := by
  induction l with
  | nil => intro k; rfl
  | cons x xs ih => intro k; rw [withKeysFrom, List.map_cons, ih]

theorem withKeysFrom_get {α : Type} (l : List α) :
    ∀ k i (h : i < (withKeysFrom k l).length) (h2 : i < l.length),
      (withKeysFrom k l).get ⟨i, h⟩ = (k + i, l.get ⟨i, h2⟩) := by
  induction l with
  | nil => intro k i h h2; exact absurd h2 (by simp)
  | cons x xs ih =>
    intro k i h h2
    match i with
    | 0 => rfl
    | j + 1 =>
      rw [withKeysFrom] at h
      have hj : j < xs.length := Nat.lt_of_succ_lt_succ h2
      have := ih (k + 1) j (Nat.lt_of_succ_lt_succ (by simpa using h)) hj
      simpa [withKeysFrom, Nat.add_comm, Nat.add_assoc, Nat.add_left_comm] using this

theorem length_filter_le_one {β γ : Type} (key : β → γ) [DecidableEq γ] (c : γ)
    (dim : List β) (hnd : (dim.map key).Nodup) (p : β → Bool)
    (hp : ∀ b, p b = true → key b = c) : (dim.filter p).length ≤ 1 := by
  induction dim with
  | nil => simp
  | cons b bs ih =>
    rw [List.map_cons, List.nodup_cons] at hnd
    obtain ⟨hb, hbs⟩ := hnd
    by_cases hpb : p b = true
    · have hkb : key b = c := hp b hpb
      have hnil : bs.filter p = [] := by
        rw [List.filter_eq_nil_iff]
        intro x hx hpx
        apply hb
        have hkx : key x = key b := (hp x hpx).trans hkb.symm
        exact hkx ▸ List.mem_map_of_mem key hx
      rw [List.filter_cons_of_pos hpb, hnil]
      exact Nat.le_refl 1
    · rw [List.filter_cons_of_neg (by simpa using hpb)]
      exact ih hbs

theorem leftJoin_eq_map {α β γ : Type} (dim : List β) (m : α → β → Bool)
    (combine : α → Option β → γ) (l : List α)
    (h : ∀ a ∈ l, (dim.filter (m a)).length ≤ 1) :
    leftJoin dim m combine l =
      l.map (fun a => combine a (dim.filter (m a)).head?) := by
  induction l with
  | nil => rfl
  | cons a as ih =>
    have ha := h a (List.mem_cons_self a as)
    have has : ∀ x ∈ as, (dim.filter (m x)).length ≤ 1 :=
      fun x hx => h x (List.mem_cons_of_mem a hx)
    rw [leftJoin, ih has, List.map_cons]
    cases hf : dim.filter (m a) with
    | nil => simp [hf]
    | cons b bs =>
      have hbs : bs = [] := by
        rw [hf] at ha
        simpa using ha
      subst hbs
      simp [hf]

theorem leftJoin_length {α β γ : Type} (dim : List β) (m : α → β → Bool)
    (combine : α → Option β → γ) (l : List α)
    (h : ∀ a ∈ l, (dim.filter (m a)).length ≤ 1) :
    (leftJoin dim m combine l).length = l.length := by
  rw [leftJoin_eq_map dim m combine l h, List.length_map]

theorem build_dim_geo_map_country (df : List SourceRecord) :
    (build_dim_geo df).map (·.country) =
      List.insertionSort strLe (uniqueFirst (df.map (·.geography))) := by
  simp only [build_dim_geo, List.map_map]
  exact withKeysFrom_map_snd
    (List.insertionSort strLe (uniqueFirst (df.map (·.geography)))) 1

theorem nodup_geo_country (df : List SourceRecord) :
    ((build_dim_geo df).map (·.country)).Nodup := by
  rw [build_dim_geo_map_country]
  exact ((List.perm_insertionSort strLe _).nodup_iff).mpr (nodup_uniqueFirst _)

/-- The distinct raw `(AgeGroup, IncomeGroup)` pairs of a source table. -/
def segPairs (df : List SourceRecord) : List (GVal × GVal) :=
  uniqueFirst (df.map (fun r => (r.ageGroup, r.incomeGroup)))

/-- After `astype(str)`, the distinct raw pairs of the source are still
pairwise distinct as string pairs.  This always holds for a pandas frame,
whose group columns are homogeneous: either every cell is a plain string
(the strings are distinct themselves), or every cell belongs to one
categorical dtype, whose category labels are distinct by construction.  The
`GVal` model is more liberal than pandas, so it is taken as a hypothesis. -/
def SegStrNodup (df : List SourceRecord) : Prop :=
  ((segPairs df).map (fun p => (p.1.toStr, p.2.toStr))).Nodup

instance (df : List SourceRecord) : Decidable (SegStrNodup df) :=
  List.nodupDecidable _

theorem build_dim_segment_map_strpair (df : List SourceRecord) :
    (build_dim_segment df).map (fun sg => (sg.age_group, sg.income_group)) =
      (List.insertionSort SegPairLe (segPairs df)).map
        (fun p => (p.1.toStr, p.2.toStr)) := by
  simp only [build_dim_segment, segPairs, List.map_map]
  conv_rhs =>
    rw [← withKeysFrom_map_snd
      (List.insertionSort SegPairLe
        (uniqueFirst (df.map (fun r => (r.ageGroup, r.incomeGroup))))) 1,
      List.map_map]
  rfl

theorem nodup_segment_strpair (df : List SourceRecord) (h : SegStrNodup df) :
    ((build_dim_segment df).map (fun sg => (sg.age_group, sg.income_group))).Nodup := by
  rw [build_dim_segment_map_strpair]
  exact (((List.perm_insertionSort SegPairLe _).map _).nodup_iff).mpr h

theorem geo_filter_le_one (df : List SourceRecord) (g : String) :
    ((build_dim_geo df).filter (fun row => g == row.country)).length ≤ 1 := by
  refine length_filter_le_one (·.country) g (build_dim_geo df)
    (nodup_geo_country df) _ ?_
  intro b hb
  exact (beq_iff_eq.mp hb).symm

theorem seg_filter_le_one (df : List SourceRecord) (h : SegStrNodup df)
    (ag ig : String) :
    ((build_dim_segment df).filter
      (fun sg => ag == sg.age_group && ig == sg.income_group)).length ≤ 1 := by
  refine length_filter_le_one (fun sg => (sg.age_group, sg.income_group))
    (ag, ig) (build_dim_segment df) (nodup_segment_strpair df h) _ ?_
  intro b hb
  rw [Bool.and_eq_true] at hb
  obtain ⟨h1, h2⟩ := hb
  rw [beq_iff_eq] at h1 h2
  simp only []
  rw [← h1, ← h2]

theorem fact_length (df : List SourceRecord) (h : SegStrNodup df) :
    (build_fact_customer_status df (build_dim_customer df) (build_dim_geo df)
      build_dim_time (build_dim_segment df)).length = df.length := by
  simp only [build_fact_customer_status]
  rw [List.length_map,
    leftJoin_length _ _ _ _ (fun a _ => seg_filter_le_one df h _ _),
    leftJoin_length _ _ _ _ (fun a _ => geo_filter_le_one df _),
    List.length_map, withKeysFrom_length]

theorem withKeysFrom_getElem? {α : Type} (l : List α) :
    ∀ k i, (withKeysFrom k l)[i]? = (l[i]?).map (fun x => (k + i, x)) := by
  induction l with
  | nil => intro k i; simp [withKeysFrom]
  | cons x xs ih =>
    intro k i
    match i with
    | 0 => simp [withKeysFrom]
    | j + 1 =>
      rw [withKeysFrom]
      simp only [List.getElem?_cons_succ, ih (k + 1) j]
      rw [show k + 1 + j = k + (j + 1) by omega]

theorem fact_customer_key_getElem? (df : List SourceRecord) (h : SegStrNodup df)
    (i : Nat) (hi : i < df.length) :
    ((build_fact_customer_status df (build_dim_customer df) (build_dim_geo df)
      build_dim_time (build_dim_segment df))[i]?).map (·.customer_key) =
      some (i + 1) := by
  simp only [build_fact_customer_status]
  rw [leftJoin_eq_map _ _ _ _ (fun a _ => seg_filter_le_one df h _ _),
      leftJoin_eq_map _ _ _ _ (fun a _ => geo_filter_le_one df _)]
  simp [List.getElem?_map, withKeysFrom_getElem?, List.getElem?_eq_getElem hi,
    Nat.add_comm]

theorem build_dim_geo_map_key (df : List SourceRecord) :
    (build_dim_geo df).map (·.geo_key) =
      List.range' 1 (uniqueFirst (df.map (·.geography))).length := by
  simp only [build_dim_geo, List.map_map]
  have h := withKeysFrom_map_fst
    (List.insertionSort strLe (uniqueFirst (df.map (·.geography)))) 1
  rw [(List.perm_insertionSort strLe _).length_eq] at h
  exact h

theorem build_dim_segment_map_key (df : List SourceRecord) :
    (build_dim_segment df).map (·.segment_key) =
      List.range' 1 (segPairs df).length := by
  simp only [build_dim_segment, segPairs, List.map_map]
  have h := withKeysFrom_map_fst
    (List.insertionSort SegPairLe
      (uniqueFirst (df.map (fun r => (r.ageGroup, r.incomeGroup))))) 1
  rw [(List.perm_insertionSort SegPairLe _).length_eq] at h
  exact h

theorem build_dim_geo_perm_invariant (df df' : List SourceRecord)
    (h : df.Perm df') : build_dim_geo df = build_dim_geo df' := by
  have hperm : (uniqueFirst (df.map (·.geography))).Perm
      (uniqueFirst (df'.map (·.geography))) :=
    uniqueFirst_perm_of_perm (h.map _)
  have hsorted : List.insertionSort strLe (uniqueFirst (df.map (·.geography)))
      = List.insertionSort strLe (uniqueFirst (df'.map (·.geography))) :=
    List.eq_of_perm_of_sorted
      (((List.perm_insertionSort strLe _).trans hperm).trans
        (List.perm_insertionSort strLe _).symm)
      (List.sorted_insertionSort strLe _) (List.sorted_insertionSort strLe _)
  simp only [build_dim_geo, hsorted]

/-- The three-row source table of the spec's end-to-end example (§8.6). -/
def dfExample : List SourceRecord :=
  [mkRec "France" (.s "26-35") (.s "Low"),
   mkRec "Germany" (.s "26-35") (.s "Low"),
   mkRec "France" (.s "46-55") (.s "High")]

theorem sortedPy_fails_iff (l : List (Option String)) :
    (sortedPy l).isOk = false ↔
      (none ∈ l ∧ ∃ st : String, some st ∈ l) := by
  unfold sortedPy
  by_cases h : (l.any (fun x => x.isNone) && l.any (fun x => x.isSome)) = true
  · rw [if_pos h]
    simp only [Bool.and_eq_true, List.any_eq_true] at h
    obtain ⟨⟨x, hx, hxn⟩, ⟨y, hy, hys⟩⟩ := h
    constructor
    · intro _
      refine ⟨?_, ?_⟩
      · rwa [Option.isNone_iff_eq_none.mp hxn] at hx
      · obtain ⟨st, hst⟩ := Option.isSome_iff_exists.mp hys
        exact ⟨st, hst ▸ hy⟩
    · intro _; rfl
  · rw [if_neg h]
    constructor
    · intro hok
      by_cases h2 : l.all (fun x => x.isSome) = true
      · rw [if_pos h2] at hok
        simp [Except.isOk, Except.toBool] at hok
      · rw [if_neg h2] at hok
        simp [Except.isOk, Except.toBool] at hok
    · rintro ⟨hn, st, hs⟩
      refine absurd ?_ h
      simp only [Bool.and_eq_true, List.any_eq_true]
      exact ⟨⟨none, hn, rfl⟩, ⟨some st, hs, rfl⟩⟩

theorem build_dim_geo_raw_fails_iff (geo : Option (List (Option String))) :
    (build_dim_geo_raw geo).isOk = false ↔
      (geo = none ∨ ∃ col, geo = some col ∧
        none ∈ col ∧ ∃ st : String, some st ∈ col) := by
  cases geo with
  | none => simp [build_dim_geo_raw, Except.isOk, Except.toBool]
  | some col =>
    simp only [build_dim_geo_raw]
    have hex : ((sortedPy (uniqueFirst col)).map
        (fun sortedCountries => withKeysFrom 1 sortedCountries)).isOk
        = (sortedPy (uniqueFirst col)).isOk := by
      cases sortedPy (uniqueFirst col) <;> rfl
    rw [hex, sortedPy_fails_iff]
    simp only [mem_uniqueFirst]
    constructor
    · rintro ⟨hn, st, hs⟩
      exact Or.inr ⟨col, rfl, hn, st, hs⟩
    · rintro (hcon | ⟨col2, hcol, hn, st, hs⟩)
      · exact absurd hcon (by simp)
      · cases Option.some.inj hcol
        exact ⟨hn, st, hs⟩

theorem pipeline_missing_geography (df : RawDF) (h : df.geographyPresent = false) :
    run_etl_pipeline_model df = (.error (.keyError "Geography"), []) := by
  simp [run_etl_pipeline_model, RawDF.geographyCol, h, build_dim_geo_raw]

/-- C1: the fact builder does NOT raise on a source Geography value that is
missing from the Geo dimension.  Evaluating the code on a one-row "Spain"
source against a Geo dimension built from a "France"-only source (the
claim's stale-dimension scenario), the build completes normally and returns
a fact table whose single row has a null `geo_key` — there is no
`JoinIntegrityError` anywhere in `build_fact_customer_status`; the left
merge (lines 161-166) silently emits the null-keyed row. -/
theorem C1_unmatched_geo_emits_null_key_row :
    build_fact_customer_status [mkRec "Spain" (.s "26-35") (.s "Low")]
      (build_dim_customer [mkRec "Spain" (.s "26-35") (.s "Low")])
      (build_dim_geo [mkRec "France" (.s "26-35") (.s "Low")])
      build_dim_time
      (build_dim_segment [mkRec "Spain" (.s "26-35") (.s "Low")]) =
    [{ customer_key := 1, time_key := 1, geo_key := none,
       segment_key := some 1, balance := 60000, estimated_salary := 50000,
       num_of_products := 1, credit_score := 600, has_credit_card := 1,
       is_active_member := 0, churn_flag := 0 }] := by
  decide

/-- C2: `build_dim_segment` does NOT convert the group values to strings
before sorting: `sort_values` (line 90) runs on the raw values and
`astype(str)` (lines 94-95) only afterwards.  On the same two logical pairs
("26-35","Low") and ("26-35","High"), the plain-string table sorts by
string order (High < Low) and assigns ("26-35","Low") key 2, while the
ordered-categorical table (Low at code 0, High at code 2, as produced by
`pd.qcut` with `INCOME_LABELS = [Low, Mid, High]`) sorts by category code
and assigns the very same pair key 1: the representations diverge. -/
theorem C2_segment_sorts_raw_values_before_stringifying :
    build_dim_segment [mkRec "France" (.s "26-35") (.s "Low"),
        mkRec "France" (.s "26-35") (.s "High")] =
      [{ segment_key := 1, age_group := "26-35", income_group := "High" },
       { segment_key := 2, age_group := "26-35", income_group := "Low" }]
    ∧ build_dim_segment [mkRec "France" (.c "26-35" 1) (.c "Low" 0),
        mkRec "France" (.c "26-35" 1) (.c "High" 2)] =
      [{ segment_key := 1, age_group := "26-35", income_group := "Low" },
       { segment_key := 2, age_group := "26-35", income_group := "High" }] := by
  constructor
  · decide
  · decide

/-- C3: for a non-empty source table, with all four dimensions built from
that same table, the fact table has exactly as many rows as the source:
both left joins match every row against at most one dimension row (the
dimension key columns are duplicate-free), and an unmatched row still
yields exactly one (null-keyed) output row.  `SegStrNodup df` states that
distinct raw group pairs stay distinct after `astype(str)`, which always
holds for a homogeneous pandas column. -/
theorem C3_fact_cardinality (df : List SourceRecord) (hne : df ≠ [])
    (h : SegStrNodup df) :
    (build_fact_customer_status df (build_dim_customer df) (build_dim_geo df)
      build_dim_time (build_dim_segment df)).length = df.length :=
  fact_length df h

/-- Witness for C3 at the spec's three-row example table. -/
theorem C3_fact_cardinality_witness :
    dfExample ≠ [] ∧ SegStrNodup dfExample ∧
      (build_fact_customer_status dfExample (build_dim_customer dfExample)
        (build_dim_geo dfExample) build_dim_time
        (build_dim_segment dfExample)).length = dfExample.length :=
  ⟨by decide, by decide, C3_fact_cardinality dfExample (by decide) (by decide)⟩

/-- C4: the `geo_key` column is exactly the dense range `1..K` with `K` the
number of distinct Geography values present in the source, and the
`segment_key` column is exactly `1..K` with `K` the number of distinct
raw `(AgeGroup, IncomeGroup)` pairs present — no gaps, no duplicates. -/
theorem C4_key_density (df : List SourceRecord) :
    (build_dim_geo df).map (·.geo_key) =
      List.range' 1 (df.map (·.geography)).toFinset.card
    ∧ (build_dim_segment df).map (·.segment_key) =
      List.range' 1 (df.map (fun r => (r.ageGroup, r.incomeGroup))).toFinset.card := by
  constructor
  · rw [build_dim_geo_map_key, uniqueFirst_length_eq_card]
  · rw [build_dim_segment_map_key]
    simp only [segPairs]
    rw [uniqueFirst_length_eq_card]

/-- C5: building the Geo dimension from any permutation of the source rows
yields the identical table: the construction only depends on the sorted
set of distinct Geography values. -/
theorem C5_geo_sort_determinism (df df' : List SourceRecord)
    (h : df.Perm df') : build_dim_geo df = build_dim_geo df' :=
  build_dim_geo_perm_invariant df df' h

/-- Witness for C5: swapping two rows leaves the Geo dimension unchanged. -/
theorem C5_geo_sort_determinism_witness :
    build_dim_geo [mkRec "Germany" (.s "26-35") (.s "Low"),
        mkRec "France" (.s "46-55") (.s "High")]
      = build_dim_geo [mkRec "France" (.s "46-55") (.s "High"),
          mkRec "Germany" (.s "26-35") (.s "Low")] :=
  C5_geo_sort_determinism _ _
    (List.Perm.swap (mkRec "France" (.s "46-55") (.s "High"))
      (mkRec "Germany" (.s "26-35") (.s "Low")) [])

/-- C6: at every (0-based) source position `i` the Customer dimension row
has `customer_key = customer_id = i + 1` (the 1-based position), and the
fact row at the same position carries the same `customer_key = i + 1`. -/
theorem C6_customer_key_alignment (df : List SourceRecord) (i : Nat)
    (hi : i < df.length) (h : SegStrNodup df) :
    ((build_dim_customer df)[i]?).map (·.customer_key) = some (i + 1)
    ∧ ((build_dim_customer df)[i]?).map (·.customer_id) = some (i + 1)
    ∧ ((build_fact_customer_status df (build_dim_customer df)
        (build_dim_geo df) build_dim_time
        (build_dim_segment df))[i]?).map (·.customer_key) = some (i + 1) := by
  refine ⟨?_, ?_, fact_customer_key_getElem? df h i hi⟩
  · simp [build_dim_customer, List.getElem?_map, withKeysFrom_getElem?,
      List.getElem?_eq_getElem hi, Nat.add_comm]
  · simp [build_dim_customer, List.getElem?_map, withKeysFrom_getElem?,
      List.getElem?_eq_getElem hi, Nat.add_comm]

/-- Witness for C6 at the last position of the example table. -/
theorem C6_customer_key_alignment_witness :
    2 < dfExample.length ∧ SegStrNodup dfExample ∧
      (((build_dim_customer dfExample)[2]?).map (·.customer_key) = some 3
      ∧ ((build_dim_customer dfExample)[2]?).map (·.customer_id) = some 3
      ∧ ((build_fact_customer_status dfExample (build_dim_customer dfExample)
          (build_dim_geo dfExample) build_dim_time
          (build_dim_segment dfExample))[2]?).map (·.customer_key) = some 3) :=
  ⟨by decide, by decide, C6_customer_key_alignment dfExample 2 (by decide) (by decide)⟩

/-- C7: every row the fact builder emits has exactly the eleven output
columns, in the dictionary order of lines 180-192, and none of the cleaned
source table's column names appears among them. -/
theorem C7_fact_projection_columns (df : List SourceRecord)
    (dim_customer : List CustomerRow) (dim_geo : List GeoRow)
    (dim_time : List TimeRow) (dim_segment : List SegmentRow) :
    (∀ row ∈ build_fact_customer_status df dim_customer dim_geo dim_time
        dim_segment,
      (fact_row_named row).map Prod.fst = fact_table_columns)
    ∧ fact_table_columns =
      ["customer_key", "time_key", "geo_key", "segment_key", "balance",
       "estimated_salary", "num_of_products", "credit_score",
       "has_credit_card", "is_active_member", "churn_flag"]
    ∧ ∀ c ∈ clean_source_columns, c ∉ fact_table_columns :=
  ⟨fun _ _ => rfl, rfl, by decide⟩

/-- Witness for C7: the first fact row of the example build has exactly the
eleven column names, and the source's `Geography` column is not among
them. -/
theorem C7_fact_projection_columns_witness :
    (fact_row_named
      { customer_key := 1, time_key := 1, geo_key := some 1,
        segment_key := some 1, balance := 60000, estimated_salary := 50000,
        num_of_products := 1, credit_score := 600, has_credit_card := 1,
        is_active_member := 0, churn_flag := 0 }).map Prod.fst =
      fact_table_columns
    ∧ "Geography" ∉ fact_table_columns :=
  ⟨(C7_fact_projection_columns dfExample (build_dim_customer dfExample)
      (build_dim_geo dfExample) build_dim_time (build_dim_segment dfExample)).1
    _ (by decide),
   (C7_fact_projection_columns dfExample (build_dim_customer dfExample)
      (build_dim_geo dfExample) build_dim_time (build_dim_segment dfExample)).2.2
    "Geography" (by decide)⟩

/-- C8 counterexample: a present but entirely-null Geography column does
not fail — `build_dim_geo` succeeds and returns a single dimension row with
key 1 and a null country, so the builder does not fail "exactly when the
attribute is absent or entirely null". -/
theorem C8_entirely_null_geography_succeeds :
    build_dim_geo_raw (some [none, none]) = .ok [(1, none)] := rfl

/-- C8 as amended: the Geo builder fails exactly when the Geography column
is absent (pandas `KeyError`) or mixes null and non-null cells (Python
`TypeError` when `sorted` compares NaN with a string); an entirely-null
column succeeds with a null-country row.  When the source lacks the
Geography attribute, the pipeline raises before any output file is
written. -/
theorem C8_schema_failure_characterization :
    (∀ geo : Option (List (Option String)),
      (build_dim_geo_raw geo).isOk = false ↔
        (geo = none ∨ ∃ col, geo = some col ∧
          none ∈ col ∧ ∃ st : String, some st ∈ col))
    ∧ ∀ df : RawDF, df.geographyPresent = false →
        run_etl_pipeline_model df = (.error (.keyError "Geography"), []) :=
  ⟨build_dim_geo_raw_fails_iff, pipeline_missing_geography⟩

/-- Witness for C8: running the pipeline on a frame without the Geography
column errors out with no file written. -/
theorem C8_schema_failure_characterization_witness :
    run_etl_pipeline_model { geographyPresent := false, rows := dfExample }
      = (.error (.keyError "Geography"), []) :=
  C8_schema_failure_characterization.2
    { geographyPresent := false, rows := dfExample } rfl

/-- C9: the fact-build step of the pipeline (line 262) assigns only the
fact table; the four dimension tables (and the source frame) it received
are exactly the ones it leaves behind. -/
theorem C9_fact_builder_preserves_dims (s : WarehouseState) :
    (fact_build_step s).dim_customer = s.dim_customer
    ∧ (fact_build_step s).dim_geo = s.dim_geo
    ∧ (fact_build_step s).dim_time = s.dim_time
    ∧ (fact_build_step s).dim_segment = s.dim_segment
    ∧ (fact_build_step s).df = s.df :=
  ⟨rfl, rfl, rfl, rfl, rfl⟩

/-- C10: on an empty source table (columns present, zero rows) every
builder succeeds with an empty table, the fact-cardinality equation holds,
and the raw-level Geo builder likewise succeeds. -/
theorem C10_empty_source :
    build_dim_geo [] = [] ∧ build_dim_segment [] = []
    ∧ build_dim_customer [] = []
    ∧ build_fact_customer_status [] (build_dim_customer [])
        (build_dim_geo []) build_dim_time (build_dim_segment []) = []
    ∧ (build_fact_customer_status [] (build_dim_customer [])
        (build_dim_geo []) build_dim_time (build_dim_segment [])).length
      = ([] : List SourceRecord).length
    ∧ build_dim_geo_raw (some []) = .ok [] :=
  ⟨rfl, rfl, rfl, rfl, rfl, rfl⟩

end DwhEtl
